import Mathlib

/-!
Shallow embedding of the HDR exposure-fusion pipeline of this repository
(src/process_hdr.py and src/process_hdropencv.py), together with theorems
settling the spec claims about it.

The repository is glue around OpenCV: the heavy numerical stages (MTB
alignment, Debevec calibration, Debevec merge, the tone-mapping operators)
are library calls.  What the repository itself does — reading and filtering
images, validating the image count, resolving exposure times, pairing
images with times, scaling and casting to 8-bit / 16-bit integers, the
metadata-extraction control flow — is embedded here faithfully.  Sample
values and exposure times are modelled as rationals; the unsigned-integer
casts of numpy (`astype(np.uint8)`, `astype(np.uint16)`) are modelled as
floor followed by reduction modulo 2^8 / 2^16, which is the C cast numpy
performs on non-negative values (all casts in the code happen after a
`np.clip` to a non-negative range).
-/

set_option autoImplicit false

namespace HDRPipeline

/-- An input image as the repository-level control flow sees it: only its
shape (height, width, channel count) matters to the validation and ordering
logic embedded here; pixel content is consumed inside OpenCV. -/
structure Image where
  height : ℕ
  width : ℕ
  channels : ℕ
  deriving DecidableEq, Repr

/-- Run-level errors raised before the OpenCV merge stages.
`insufficientInput` is the `ValueError` of merge_hdr_opencv line 24
(fewer than 2 readable images); `shapeMismatch` is the `ShapeMismatchError`
the spec prescribes — no code in the repository raises it, and its presence
in this type lets that absence be stated as a theorem. -/
inductive MergeError where
  | insufficientInput
  | shapeMismatch
  deriving DecidableEq, Repr

/-- The default fallback exposure ladder, `[1/8000, 1/1000, 1/125, 1/15,
1/2]`, appearing in merge_hdr_opencv line 29 and process_cr2_files line
215. -/
def defaultLadder : List ℚ := [1/8000, 1/1000, 1/125, 1/15, 1/2]

/-- Exposure-time resolution of merge_hdr_opencv lines 27-32: when the
caller passed `None`, the ladder is truncated to the image count
(`exposure_times[:len(images)]`, which also silently gives fewer times than
images when there are more than 5 images); otherwise the caller's sequence
is used unchanged. -/
def resolveExposureTimes (times : Option (List ℚ)) (images : List Image) : List ℚ :=
  match times with
  | some ts => ts
  | none => defaultLadder.take images.length

/-- The repository-level front end of merge_hdr_opencv (lines 13-49): read
each path with cv2.imread — an unreadable path yields `none` and is skipped
with a message — raise `ValueError` if fewer than 2 images were read,
resolve the exposure times, and hand the image list and time list, in
exactly this order, to the OpenCV alignment / calibration / merge stages.
The `.ok` payload is the (images, exposure_times) pair passed downstream;
no other validation (in particular no shape or channel check, and no
reordering) occurs in the repository code on this path. -/
def merge_hdr_opencv (paths : List (Option Image)) (times : Option (List ℚ)) :
    Except MergeError (List Image × List ℚ) :=
  let images := paths.filterMap id
  if images.length < 2 then
    .error .insufficientInput
  else
    .ok (images, resolveExposureTimes times images)

/-- Fallback exposure of process_cr2_files lines 215-220 for a file whose
metadata extraction failed: the ladder entry at the running index when in
range, else the last ladder entry (`default_exposures[-1]`). -/
def fallbackExposure (i : ℕ) : ℚ :=
  if i < defaultLadder.length then defaultLadder.getD i 0
  else defaultLadder.getLastD 0

/-- The exposure-time loop of process_cr2_files lines 207-223, with the
running index made explicit: in the Python loop `idx = len(exposure_times)`
at the time file `i` is processed equals `i`, because every earlier
iteration appended exactly one entry (extracted or fallback). -/
def exposureTimesFrom : ℕ → List (Option ℚ) → List ℚ
  | _, [] => []
  | i, e :: es => e.getD (fallbackExposure i) :: exposureTimesFrom (i + 1) es

/-- Exposure times computed by process_cr2_files lines 207-223 from the
per-file results of extract_exposure_time_from_raw (`none` when extraction
failed). -/
def computeExposureTimes (es : List (Option ℚ)) : List ℚ :=
  exposureTimesFrom 0 es

/-- One CR2 file as process_cr2_files sees it: the result of metadata
extraction (`none` when it failed) and whether the rawpy/imageio RAW-to-JPEG
conversion of lines 227-250 succeeds (on failure the file is skipped and
processing continues). -/
structure Cr2File where
  extracted : Option ℚ
  converts : Bool
  deriving DecidableEq, Repr

/-- The exposure-time sequence process_cr2_files actually passes to
merge_hdr_opencv (lines 252-263): the full per-file time list truncated to
the number of successfully converted files, `exposure_times[:len(jpeg_files)]`. -/
def cr2MergeTimes (files : List Cr2File) : List ℚ :=
  (computeExposureTimes (files.map Cr2File.extracted)).take
    (files.filter (fun f => f.converts)).length

/-- The pairing the spec prescribes: each successfully converted image
tagged with the exposure time extracted (or fallen back to) for its own
RAW file.  Stated for comparison with `cr2MergeTimes`. -/
def cr2ParallelTimes (files : List Cr2File) : List ℚ :=
  ((files.zip (computeExposureTimes (files.map Cr2File.extracted))).filter
    (fun p => p.1.converts)).map Prod.snd

/-- np.clip: clamp a sample to [lo, hi]. -/
def clip (lo hi x : ℚ) : ℚ := max lo (min hi x)

/-- astype(np.uint8): C cast to an unsigned 8-bit integer — truncation
followed by reduction modulo 2^8.  All applications in the code are to
values already clipped into [0, 255], where truncation is the floor. -/
def toUint8 (x : ℚ) : ℕ := (⌊x⌋).toNat % 256

/-- astype(np.uint16): C cast to an unsigned 16-bit integer, as `toUint8`
with modulus 2^16. -/
def toUint16 (x : ℚ) : ℕ := (⌊x⌋).toNat % 65536

/-- process_hdr.py line 59: one sample of the clipped 8-bit LDR image,
`np.clip(ldr_image * 255, 0, 255).astype(np.uint8)`, from the Drago
tone-mapped float sample `x`. -/
def ldr_image (x : ℚ) : ℕ := toUint8 (clip 0 255 (x * 255))

/-- process_hdr.py line 64: the sample actually written to the JPEG,
`(ldr_image * 255).astype(np.uint8)`.  `ldr_image` is already a uint8
array, so the multiplication by 255 happens in uint8 arithmetic and wraps
modulo 256. -/
def ldr_written (x : ℚ) : ℕ := (ldr_image x * 255) % 256

/-- np.max over the HDR raster (merge_hdr_opencv line 59); the raster is
nonempty whenever the merge ran. -/
def hdrMax : List ℚ → ℚ
  | [] => 0
  | x :: xs => xs.foldl max x

/-- merge_hdr_opencv lines 62-66: the 16-bit scale factor, `0.8 * 65535 /
max_luminance` when the maximum is positive, else 1.0. -/
def scale_factor (maxLuminance : ℚ) : ℚ :=
  if 0 < maxLuminance then (4 / 5 * 65535) / maxLuminance else 1

/-- merge_hdr_opencv line 69: the 16-bit linear TIFF samples,
`np.clip(hdrDebevec * scale_factor, 0, 65535).astype(np.uint16)`. -/
def tiff_16bit (hdr : List ℚ) : List ℕ :=
  hdr.map (fun x => toUint16 (clip 0 65535 (x * scale_factor (hdrMax hdr))))

/-- Modelled from the spec: the Fusion Merger of spec section 4.5 is not in
src/ — merge_hdr_opencv line 49 delegates it to cv2.createMergeDebevec.
The spec gives the per-pixel formula
`radiance = exp(Σ w(z_i) * (g(z_i) - ln t_i) / Σ w(z_i))`; this is its
log-domain form at one pixel: each contributing exposure is a triple
(weight `w(z_i)`, response value `g(z_i)`, log exposure time `ln t_i`) and
the fused log-radiance is the weighted mean of `g(z_i) - ln t_i`.  The
radiance is unchanged iff the log-radiance is, exp being injective. -/
def logFuse (samples : List (ℚ × ℚ × ℚ)) : ℚ :=
  (samples.map (fun s => s.1 * (s.2.1 - s.2.2))).sum /
    (samples.map (fun s => s.1)).sum

/-- Multiplying every exposure time by a positive constant k adds c = ln k
to every log exposure time; k ranges over positive reals exactly as c
ranges over all of ℝ, and k ≠ 1 iff c ≠ 0. -/
def scaleTimesLog (c : ℚ) (samples : List (ℚ × ℚ × ℚ)) : List (ℚ × ℚ × ℚ) :=
  samples.map (fun s => (s.1, s.2.1, s.2.2 + c))

/-- Exceptions of the metadata-extraction model.  Every exception the
metadata libraries raise, and ImportError for a missing module, is a
subclass of Exception — the class the handlers of
extract_exposure_time_from_raw catch. -/
inductive Exn where
  | importError
  | otherError
  deriving DecidableEq, Repr

/-- Outcome of a Python expression: a value, or a raised exception that
propagates until some handler catches it. -/
inductive PyResult (α : Type) where
  | ok : α → PyResult α
  | exc : Exn → PyResult α
  deriving DecidableEq, Repr

/-- Sequencing with exception propagation: a raised exception skips the
rest of the block. -/
def pyBind {α β : Type} : PyResult α → (α → PyResult β) → PyResult β
  | .ok a, f => f a
  | .exc e, _ => .exc e

/-- Environment for extract_exposure_time_from_raw (lines 117-184): the
behaviour of each library operation it performs, each an arbitrary value or
exception. -/
structure RawMetaEnv where
  /-- line 128: `import rawpy` succeeds. -/
  rawpyAvailable : Bool
  /-- line 129: `rawpy.imread(cr2_file)`. -/
  rawpyImread : PyResult Unit
  /-- line 133: the `raw.raw_metadata.exposure_time` attribute access. -/
  rawMetadata : PyResult ℚ
  /-- line 141: `import exifread` succeeds. -/
  exifreadAvailable : Bool
  /-- lines 142-155: open the file, process its tags, parse the
  ExposureTime tag; `some t` when the tag was found and parsed, `none` when
  absent. -/
  exifreadBlock : PyResult (Option ℚ)
  /-- lines 163-164: `from PIL import Image` succeeds. -/
  pillowAvailable : Bool
  /-- lines 166-173: open the image and scan its EXIF data; `some t` when
  an ExposureTime entry was found. -/
  pillowBlock : PyResult (Option ℚ)

/-- Lines 132-137: the rawpy attempt — `try: return
raw.raw_metadata.exposure_time; except: pass`. -/
def rawpyAttempt (env : RawMetaEnv) : Option ℚ :=
  match env.rawMetadata with
  | .ok t => some t
  | .exc _ => none

/-- Lines 140-159: the exifread attempt with its `except ImportError` and
`except Exception` handlers, both of which print and fall through. -/
def exifreadAttempt (env : RawMetaEnv) : Option ℚ :=
  match (if env.exifreadAvailable then env.exifreadBlock
         else .exc .importError : PyResult (Option ℚ)) with
  | .ok v => v
  | .exc _ => none

/-- Lines 161-177: the Pillow attempt with its `except ImportError` and
`except Exception` handlers, both of which print and fall through. -/
def pillowAttempt (env : RawMetaEnv) : Option ℚ :=
  match (if env.pillowAvailable then env.pillowBlock
         else .exc .importError : PyResult (Option ℚ)) with
  | .ok v => v
  | .exc _ => none

/-- The body of the outer try of lines 127-177: import rawpy, read the
file, then run the three attempts in order; `ok (some t)` is an early
return, `ok none` is falling off the end of the try body, `exc` is an
uncaught exception propagating out of the body. -/
def extractBody (env : RawMetaEnv) : PyResult (Option ℚ) :=
  pyBind (if env.rawpyAvailable then .ok () else .exc .importError) fun _ =>
  pyBind env.rawpyImread fun _ =>
  match rawpyAttempt env with
  | some t => .ok (some t)
  | none =>
    match exifreadAttempt env with
    | some t => .ok (some t)
    | none =>
      match pillowAttempt env with
      | some t => .ok (some t)
      | none => .ok none

/-- extract_exposure_time_from_raw, lines 117-184: the outer try body, its
`except Exception` handler (line 179, which catches both exception kinds of
the model since both are Exception subclasses), and the final `return None`
of line 184 reached both after the handler and after falling off the end
of the try body. -/
def extract_exposure_time_from_raw (env : RawMetaEnv) : PyResult (Option ℚ) :=
  match extractBody env with
  | .ok (some t) => .ok (some t)
  | .ok none => .ok none
  | .exc .importError => .ok none
  | .exc .otherError => .ok none

end HDRPipeline

namespace HDRPipeline

/-- Claim C2: merge_hdr_opencv raises its insufficient-input error exactly
when fewer than 2 images remain readable after filtering; with 2 or more
readable images that error is not raised. -/
theorem merge_insufficient_iff (paths : List (Option Image)) (times : Option (List ℚ)) :
    merge_hdr_opencv paths times = .error .insufficientInput ↔
      (paths.filterMap id).length < 2 := by
  unfold merge_hdr_opencv
  by_cases h : (paths.filterMap id).length < 2 <;> simp [h]

/-- Witness for claim C2: with an empty path list the merge fails with the
insufficient-input error. -/
theorem merge_insufficient_iff_witness :
    merge_hdr_opencv [] none = .error .insufficientInput :=
  (merge_insufficient_iff [] none).mpr (by decide)

/-- Counterexample to claim C3: with 6 readable images and no caller
exposure times, the merge runs with only the 5 ladder values — not with
one strictly-positive time per image. -/
theorem merge_default_ladder_short :
    merge_hdr_opencv (List.replicate 6 (some (Image.mk 2 2 3))) none
        = .ok (List.replicate 6 (Image.mk 2 2 3), defaultLadder) ∧
      defaultLadder.length = 5 ∧ defaultLadder.length ≠ 6 :=
  ⟨rfl, rfl, by decide⟩

/-- Claim C3 as amended: with `exposure_times = None` and n readable images
where 2 ≤ n ≤ 5, the merge runs with the length-n ladder-value parallel
sequence `defaultLadder.take n`, whose entries are all strictly positive;
for n > 5 only the 5 ladder values are produced (see the counterexample). -/
theorem merge_default_times_parallel (paths : List (Option Image))
    (h2 : 2 ≤ (paths.filterMap id).length) (h5 : (paths.filterMap id).length ≤ 5) :
    merge_hdr_opencv paths none
        = .ok (paths.filterMap id, defaultLadder.take (paths.filterMap id).length) ∧
      (defaultLadder.take (paths.filterMap id).length).length
        = (paths.filterMap id).length ∧
      ∀ t ∈ defaultLadder.take (paths.filterMap id).length, 0 < t := by
  refine ⟨?_, ?_, ?_⟩
  · unfold merge_hdr_opencv resolveExposureTimes
    simp [Nat.not_lt.mpr h2]
  · have hlen : defaultLadder.length = 5 := by decide
    simp [List.length_take, hlen, Nat.min_eq_left h5]
  · intro t ht
    have hmem : t ∈ defaultLadder := List.mem_of_mem_take ht
    fin_cases hmem <;> norm_num

/-- Witness for claim C3 (amended): two readable images and no caller
times run with the two ladder values 1/8000 and 1/1000, both positive. -/
theorem merge_default_times_parallel_witness :
    merge_hdr_opencv [some (Image.mk 2 2 3), some (Image.mk 2 2 3)] none
        = .ok (([some (Image.mk 2 2 3), some (Image.mk 2 2 3)] :
                  List (Option Image)).filterMap id,
               defaultLadder.take (([some (Image.mk 2 2 3), some (Image.mk 2 2 3)] :
                  List (Option Image)).filterMap id).length) ∧
      (defaultLadder.take (([some (Image.mk 2 2 3), some (Image.mk 2 2 3)] :
          List (Option Image)).filterMap id).length).length
        = (([some (Image.mk 2 2 3), some (Image.mk 2 2 3)] :
              List (Option Image)).filterMap id).length ∧
      ∀ t ∈ defaultLadder.take (([some (Image.mk 2 2 3), some (Image.mk 2 2 3)] :
          List (Option Image)).filterMap id).length, 0 < t :=
  merge_default_times_parallel [some (Image.mk 2 2 3), some (Image.mk 2 2 3)]
    (by decide) (by decide)

/-- Counterexample to claim C4: two readable images supplied with exposure
times 1/2 then 1/8000 are handed to the downstream stages in exactly that
caller order, which is not sorted by exposure time — no time-sorting
happens anywhere in the pipeline. -/
theorem merge_not_time_sorted :
    merge_hdr_opencv [some (Image.mk 1 1 3), some (Image.mk 1 2 3)]
        (some [1/2, 1/8000])
        = .ok ([Image.mk 1 1 3, Image.mk 1 2 3], [1/2, 1/8000]) ∧
      ¬ List.Chain' (fun a b => a ≤ b) [(1 : ℚ)/2, 1/8000] := by
  refine ⟨rfl, ?_⟩
  simp only [List.chain'_cons, List.chain'_singleton, and_true]
  norm_num

/-- Claim C4 as amended: merge_hdr_opencv passes images and exposure times
to alignment, calibration and merging in exactly the order the caller
supplied them (unreadable images dropped in place); no reordering by
exposure time occurs. -/
theorem merge_preserves_caller_order (paths : List (Option Image)) (ts : List ℚ)
    (imgs : List Image) (rts : List ℚ)
    (h : merge_hdr_opencv paths (some ts) = .ok (imgs, rts)) :
    imgs = paths.filterMap id ∧ rts = ts := by
  unfold merge_hdr_opencv resolveExposureTimes at h
  by_cases hlt : (paths.filterMap id).length < 2
  · simp [hlt] at h
  · simp [hlt] at h
    exact ⟨h.1.symm, h.2.symm⟩

/-- Witness for claim C4 (amended): at the counterexample input the
downstream order is the caller order. -/
theorem merge_preserves_caller_order_witness :
    [Image.mk 1 1 3, Image.mk 1 2 3]
        = ([some (Image.mk 1 1 3), some (Image.mk 1 2 3)] :
            List (Option Image)).filterMap id ∧
      [(1 : ℚ)/2, 1/8000] = [(1 : ℚ)/2, 1/8000] :=
  merge_preserves_caller_order
    [some (Image.mk 1 1 3), some (Image.mk 1 2 3)] [1/2, 1/8000]
    [Image.mk 1 1 3, Image.mk 1 2 3] [1/2, 1/8000] (by rfl)

/-- Counterexample to claim C6: two readable images of different
resolutions pass the front end of merge_hdr_opencv and are handed to the
OpenCV stages; no shape-mismatch error is raised by the repository code. -/
theorem merge_shape_mismatch_not_raised :
    merge_hdr_opencv [some (Image.mk 2 2 3), some (Image.mk 4 4 3)]
        (some [1/125, 1/15])
        = .ok ([Image.mk 2 2 3, Image.mk 4 4 3], [1/125, 1/15]) ∧
      Image.mk 2 2 3 ≠ Image.mk 4 4 3 ∧
      merge_hdr_opencv [some (Image.mk 2 2 3), some (Image.mk 4 4 3)]
        (some [1/125, 1/15]) ≠ .error .shapeMismatch := by
  refine ⟨rfl, by decide, fun h => Except.noConfusion h⟩

/-- Claim C6 as amended: merge_hdr_opencv performs no shape or channel
validation at all — for every input, whatever the image shapes, it never
fails with a shape-mismatch error; mismatched exposures proceed into the
OpenCV alignment/calibration/merge stages (where any failure is a library
error, not a repository-level ShapeMismatchError raised before merging). -/
theorem merge_never_shape_error (paths : List (Option Image))
    (times : Option (List ℚ)) :
    merge_hdr_opencv paths times ≠ .error .shapeMismatch := by
  unfold merge_hdr_opencv
  by_cases h : (paths.filterMap id).length < 2 <;> simp [h]

/-- Claim C1 (failing input): a Drago tone-mapped sample of value 2/255 is
correctly clipped and cast to the 8-bit value 2 on process_hdr.py line 59,
but line 64 multiplies the already 8-bit image by 255 again in uint8
arithmetic: the product 510 wraps modulo 256 to 254 in the written JPEG,
where clamping 510 to the 8-bit range would give 255. -/
theorem ldr_written_wraps :
    ldr_image (2/255) = 2 ∧
      ldr_image (2/255) * 255 = 510 ∧
      ldr_written (2/255) = 254 ∧
      clip 0 255 (510 : ℚ) = 255 ∧
      (254 : ℕ) ≠ 255 := by
  have h : ldr_image (2/255) = 2 := by
    norm_num [ldr_image, toUint8, clip]
    decide
  refine ⟨h, by rw [h], by rw [ldr_written, h], ?_, by decide⟩
  norm_num [clip]

/-- Lookup into the exposure-time loop of process_cr2_files: the entry at
position i is the extracted time when extraction succeeded there, else the
fallback at the starting index plus i. -/
theorem exposureTimesFrom_get (es : List (Option ℚ)) :
    ∀ (j i : ℕ), (exposureTimesFrom j es).get? i
      = (es.get? i).map (fun e => e.getD (fallbackExposure (j + i))) := by
  induction es with
  | nil => intro j i; cases i <;> simp [exposureTimesFrom]
  | cons e es ih =>
    intro j i
    cases i with
    | zero => simp [exposureTimesFrom]
    | succ i =>
      have hidx : j + 1 + i = j + (i + 1) := by omega
      simpa [exposureTimesFrom, hidx] using ih (j + 1) i

/-- Claim C8: the fallback exposure time used by process_cr2_files for a
file at position i whose metadata extraction failed is determined by i
alone: the ladder entry at i when i < 5, and the last ladder value 1/2 for
every later position. -/
theorem cr2_fallback_by_position (es : List (Option ℚ)) (i : ℕ)
    (h : es.get? i = some none) :
    (computeExposureTimes es).get? i
      = some (if i < 5 then defaultLadder.getD i 0 else 1/2) := by
  rw [computeExposureTimes, exposureTimesFrom_get es 0 i, h]
  simp only [Option.map_some, Option.getD_none, Nat.zero_add]
  rfl

/-- Witness for claim C8: six files all failing extraction — position 5 is
past the 5-entry ladder and receives the repeated last value 1/2. -/
theorem cr2_fallback_by_position_witness :
    (computeExposureTimes [some (1:ℚ), none, none, none, none, none]).get? 5
      = some (if 5 < 5 then defaultLadder.getD 5 0 else 1/2) :=
  cr2_fallback_by_position [some (1:ℚ), none, none, none, none, none] 5 rfl

/-- Claim C5 (failing input): three CR2 files with exposure times 1, 2 and
3 seconds, of which the second fails RAW-to-JPEG conversion.  The merge is
called with the times [1, 2] for the converted images of the first and
third file, while the parallel tagging the spec prescribes is [1, 3]: the
end-truncation `exposure_times[:len(jpeg_files)]` misaligns exposure times
with images when a conversion failure is not at the end of the list. -/
theorem cr2_times_misaligned :
    cr2MergeTimes [⟨some 1, true⟩, ⟨some 2, false⟩, ⟨some 3, true⟩] = [1, 2] ∧
      cr2ParallelTimes [⟨some 1, true⟩, ⟨some 2, false⟩, ⟨some 3, true⟩] = [1, 3] ∧
      ([1, 2] : List ℚ) ≠ [1, 3] := by
  refine ⟨rfl, rfl, ?_⟩
  intro h
  simp at h

/-- A fold of max starts no lower than its seed and dominates every list
element. -/
theorem foldl_max_bounds (xs : List ℚ) :
    ∀ (a : ℚ), a ≤ xs.foldl max a ∧ ∀ x ∈ xs, x ≤ xs.foldl max a := by
  induction xs with
  | nil => intro a; exact ⟨le_refl a, by simp⟩
  | cons y ys ih =>
    intro a
    refine ⟨le_trans (le_max_left a y) (ih (max a y)).1, ?_⟩
    intro x hx
    rcases List.mem_cons.mp hx with h | h
    · subst h
      exact le_trans (le_max_right a x) (ih (max a x)).1
    · exact (ih (max a y)).2 x h

/-- Every sample of the HDR raster is bounded by np.max of the raster. -/
theorem le_hdrMax (l : List ℚ) (x : ℚ) (hx : x ∈ l) : x ≤ hdrMax l := by
  cases l with
  | nil => cases hx
  | cons y ys =>
    rcases List.mem_cons.mp hx with h | h
    · subst h
      exact (foldl_max_bounds ys x).1
    · exact (foldl_max_bounds ys y).2 x h

/-- Claim C9: every 16-bit TIFF sample lies in [0, 65535]; the uint16 cast
never wraps (each written sample is exactly the floor of the clipped value,
the modulo-2^16 reduction of the cast being the identity there); and when
the HDR maximum is positive every sample is at most 0.8 * 65535 = 52428. -/
theorem tiff16_bounds (hdr : List ℚ) :
    (∀ y ∈ tiff_16bit hdr, y ≤ 65535) ∧
      tiff_16bit hdr
        = hdr.map (fun x =>
            (⌊clip 0 65535 (x * scale_factor (hdrMax hdr))⌋).toNat) ∧
      (0 < hdrMax hdr → ∀ y ∈ tiff_16bit hdr, y ≤ 52428) := by
  have key : ∀ v : ℚ, toUint16 (clip 0 65535 v) = (⌊clip 0 65535 v⌋).toNat ∧
      (⌊clip 0 65535 v⌋).toNat ≤ 65535 := by
    intro v
    have h1 : clip 0 65535 v ≤ ((65535 : ℤ) : ℚ) := by
      push_cast
      exact max_le (by norm_num) (min_le_left _ _)
    have h2 : ⌊clip 0 65535 v⌋ ≤ 65535 := by
      simpa using Int.floor_le_floor h1
    exact ⟨Nat.mod_eq_of_lt (by omega), by omega⟩
  refine ⟨?_, ?_, ?_⟩
  · intro y hy
    rcases List.mem_map.mp hy with ⟨x, hx, rfl⟩
    rw [(key _).1]
    exact (key _).2
  · rw [tiff_16bit]
    exact List.map_congr_left fun x _ => (key _).1
  · intro hm y hy
    rcases List.mem_map.mp hy with ⟨x, hx, rfl⟩
    have hxm : x ≤ hdrMax hdr := le_hdrMax hdr x hx
    have hsf : scale_factor (hdrMax hdr) = 52428 / hdrMax hdr := by
      rw [scale_factor, if_pos hm]
      norm_num
    have hv : x * scale_factor (hdrMax hdr) ≤ ((52428 : ℤ) : ℚ) := by
      rw [hsf]
      push_cast
      calc x * (52428 / hdrMax hdr)
          ≤ hdrMax hdr * (52428 / hdrMax hdr) :=
            mul_le_mul_of_nonneg_right hxm
              (div_nonneg (by norm_num) (le_of_lt hm))
        _ = 52428 := by field_simp
    have hclip : clip 0 65535 (x * scale_factor (hdrMax hdr)) ≤ ((52428 : ℤ) : ℚ) :=
      max_le (by push_cast; norm_num) (le_trans (min_le_right _ _) hv)
    have hfl : ⌊clip 0 65535 (x * scale_factor (hdrMax hdr))⌋ ≤ 52428 := by
      simpa using Int.floor_le_floor hclip
    rw [(key _).1]
    omega

/-- Witness for claim C9: a one-sample raster of positive maximum, whose
TIFF samples all lie within 80% of the 16-bit range. -/
theorem tiff16_bounds_witness :
    0 < hdrMax [(2 : ℚ)] ∧ ∀ y ∈ tiff_16bit [(2 : ℚ)], y ≤ 52428 :=
  ⟨by norm_num [hdrMax], (tiff16_bounds [(2 : ℚ)]).2.2 (by norm_num [hdrMax])⟩

/-- Counterexample to claim C7: a single-exposure pixel with weight 1,
response value 0 and log exposure time 0 fuses to log-radiance 0; scaling
the exposure time by k = e (adding c = 1 to the log time) changes the fused
log-radiance to -1 — the fused radiance map is not invariant under scaling
all exposure times by a positive constant. -/
theorem logFuse_not_scale_invariant :
    logFuse (scaleTimesLog 1 [(1, 0, 0)]) = -1 ∧
      logFuse [(1, 0, 0)] = 0 ∧
      (-1 : ℚ) ≠ 0 := by
  refine ⟨?_, ?_, by norm_num⟩ <;>
    norm_num [logFuse, scaleTimesLog]

/-- Scaling the exposure times leaves the total fusion weight of a pixel
unchanged. -/
theorem scaleTimesLog_weight_sum (c : ℚ) (samples : List (ℚ × ℚ × ℚ)) :
    (List.map (fun s => s.1) (scaleTimesLog c samples)).sum
      = (samples.map (fun s => s.1)).sum := by
  rw [scaleTimesLog, List.map_map]
  rfl

/-- Scaling the exposure times lowers the weighted log-radiance sum of a
pixel by c times the total weight. -/
theorem scaleTimesLog_weighted_sum (c : ℚ) (samples : List (ℚ × ℚ × ℚ)) :
    (List.map (fun s => s.1 * (s.2.1 - s.2.2)) (scaleTimesLog c samples)).sum
      = (samples.map (fun s => s.1 * (s.2.1 - s.2.2))).sum
        - c * (samples.map (fun s => s.1)).sum := by
  induction samples with
  | nil => simp [scaleTimesLog]
  | cons s ss ih =>
    have hcons : scaleTimesLog c (s :: ss)
        = (s.1, s.2.1, s.2.2 + c) :: scaleTimesLog c ss := by
      simp [scaleTimesLog]
    rw [hcons]
    simp only [List.map_cons, List.sum_cons]
    rw [ih]
    ring

/-- Claim C7 as amended: scaling every exposure time by a positive constant
k shifts the fused log-radiance of every pixel with nonzero total weight
uniformly by -ln k, i.e. scales the fused radiance map by the constant
factor 1/k; radiance ratios between pixels are unchanged, but the map
itself is not. -/
theorem logFuse_scaleTimes (samples : List (ℚ × ℚ × ℚ)) (c : ℚ)
    (hw : (samples.map (fun s => s.1)).sum ≠ 0) :
    logFuse (scaleTimesLog c samples) = logFuse samples - c := by
  rw [logFuse, logFuse, scaleTimesLog_weight_sum, scaleTimesLog_weighted_sum]
  field_simp
  ring

/-- Witness for claim C7 (amended): a two-exposure pixel with total weight
3; adding c = 5 to both log exposure times lowers the fused log-radiance by
exactly 5. -/
theorem logFuse_scaleTimes_witness :
    (List.map (fun s => s.1) [((1 : ℚ), (2 : ℚ), (3 : ℚ)), (2, 4, 1)]).sum ≠ 0 ∧
      logFuse (scaleTimesLog 5 [((1 : ℚ), (2 : ℚ), (3 : ℚ)), (2, 4, 1)])
        = logFuse [((1 : ℚ), (2 : ℚ), (3 : ℚ)), (2, 4, 1)] - 5 :=
  ⟨by norm_num, logFuse_scaleTimes [((1 : ℚ), (2 : ℚ), (3 : ℚ)), (2, 4, 1)] 5
    (by norm_num)⟩

/-- Claim C10: extract_exposure_time_from_raw is total at its interface —
whatever each library call returns or raises (any Exception subclass,
including ImportError for a missing module), the function returns a value,
either an exposure time or None, and never propagates an exception. -/
theorem extract_total (env : RawMetaEnv) :
    ∃ v : Option ℚ, extract_exposure_time_from_raw env = .ok v := by
  rw [extract_exposure_time_from_raw]
  rcases h : extractBody env with v | e
  · rcases v with _ | t
    · exact ⟨none, rfl⟩
    · exact ⟨some t, rfl⟩
  · rcases e with _ | _
    · exact ⟨none, rfl⟩
    · exact ⟨none, rfl⟩

end HDRPipeline
